import Mathlib

/-!
Shallow embedding of the agoraClient repository's orchestration logic:
the credential validator and token provider (`src/lib/agora-utils.ts`),
the session controller (`src/lib/agora-config.ts`), the audience hook
(`src/hooks/useAgoraAudience.ts`), and the token-issuance HTTP handlers
(the unnamed Next.js route file).

Network and engine interactions are modelled by explicit oracles
(`FetchResult`, engine-result fields of environment structures), and every
operation additionally returns the ordered trace of external requests or
engine effects it issued, so ordering and "no network call" claims are
statable.  JavaScript truthiness of strings/options is modelled by
dedicated helpers (`jsTruthyOpt`, `jsOr`), matching `x || y` on the
relevant value shapes.
-/

deriving instance DecidableEq for Except

namespace Agora

/-- JS `opt || default` for an optional string field: `undefined`/`null`
and the empty string are falsy and select the default. -/
def jsOr (o : Option String) (d : String) : String :=
  match o with
  | some s => if s = "" then d else s
  | none => d

/-- Truthiness of an optional string: `some s` with `s` nonempty. -/
def jsTruthyOpt (o : Option String) : Bool :=
  match o with
  | some s => !s.isEmpty
  | none => false

/-- A `string | number` value, as in the TS `uid` fields. -/
inductive UidVal where
  | str (s : String)
  | num (n : Int)
deriving DecidableEq, Repr

/-- JS truthiness of a `string | number` value: `""` and `0` are falsy. -/
def UidVal.truthy : UidVal → Bool
  | .str s => !s.isEmpty
  | .num n => n != 0

/-- `this.config.uid || 0`: falsy uid values collapse to the number 0. -/
def uidOr0 (u : Option UidVal) : UidVal :=
  match u with
  | some v => if v.truthy then v else .num 0
  | none => .num 0

/-- `this.config.uid || null` (the engine-join uid argument). -/
def uidOrNull (u : Option UidVal) : Option UidVal :=
  match u with
  | some v => if v.truthy then some v else none
  | none => none

/-- A hexadecimal digit, either case (the `[a-f0-9]` class under `/i`). -/
def isHexDigitCI (c : Char) : Bool :=
  ('0' ≤ c && c ≤ '9') || ('a' ≤ c && c ≤ 'f') || ('A' ≤ c && c ≤ 'F')

/-- The `/^[a-f0-9]{32}$/i` app-id pattern: exactly 32 hex characters. -/
def isHex32 (s : String) : Bool :=
  s.length = 32 && s.toList.all isHexDigitCI

/-- `/^00[67]/.test(token)`: the first three characters are `0`, `0`,
then `6` or `7`. -/
def versionPatternTest (token : String) : Bool :=
  token.data.take 3 = ['0', '0', '6'] || token.data.take 3 = ['0', '0', '7']

/-- `validateAgoraToken` from `agora-utils.ts`: reject a falsy (empty)
token, reject a token failing the `/^00[67]/` version pattern, otherwise
require length > 50. -/
def validateAgoraToken (token : String) : Bool :=
  if token = "" then false
  else if !versionPatternTest token then false
  else token.length > 50

/-- JS `String.prototype.trim()`: strip whitespace from both ends. -/
def jsTrim (s : String) : String :=
  String.mk (((s.data.dropWhile Char.isWhitespace).reverse.dropWhile
    Char.isWhitespace).reverse)

/-! ## Token provider (`agora-utils.ts`) -/

/-- Which HTTP transport shape a token request used: `generateTokenFromServer`
issues a plain `fetch` with a query string (a GET), `generateTokenFromBackend`
issues `fetch` with `method: 'POST'` and a JSON body. -/
inductive Transport where
  | queryGet
  | jsonPost
deriving DecidableEq, Repr

/-- Outcome of a `fetch` + body parse: the network/parse layer threw, or a
well-typed parsed response of shape `α` arrived. -/
inductive FetchResult (α : Type) where
  | networkError (msg : String)
  | response (r : α)
deriving DecidableEq, Repr

/-- The `data.data` object of the GET route's success body. -/
structure ServerData where
  token : String
deriving DecidableEq, Repr

/-- Parsed response seen by `generateTokenFromServer`: HTTP `ok` flag and
status, the error body's `error` field (read when not ok), and the JSON
body's `code`, `message`, `data` fields. -/
structure ServerResp where
  ok : Bool
  status : Nat
  errorField : Option String
  code : Int
  message : Option String
  data : Option ServerData
deriving DecidableEq, Repr

/-- `generateTokenFromServer` (query-string GET to `/api/agora/token`):
on not-ok throw `errorData.error || "HTTP <status>"`; on `code !== 0`
throw `message || "Token generation failed"`; else return
`data.data.token` (a missing `data.data` is a thrown TypeError). -/
def generateTokenFromServer (net : FetchResult ServerResp) : Except String String :=
  match net with
  | .networkError m => .error m
  | .response r =>
    if !r.ok then .error (jsOr r.errorField ("HTTP " ++ toString r.status))
    else if r.code ≠ 0 then .error (jsOr r.message "Token generation failed")
    else
      match r.data with
      | none => .error "Cannot read properties of undefined (reading token)"
      | some d => .ok d.token

/-- Parsed response seen by `generateTokenFromBackend`: HTTP `ok` flag and
status, the error body's `error` field, and the success body's `token`. -/
structure BackendResp where
  ok : Bool
  status : Nat
  errorField : Option String
  token : String
deriving DecidableEq, Repr

/-- `generateTokenFromBackend` (JSON POST to `/api/agora/token`): on
not-ok throw `errorData.error || "HTTP <status>"`; else return
`data.token`. -/
def generateTokenFromBackend (net : FetchResult BackendResp) : Except String String :=
  match net with
  | .networkError m => .error m
  | .response r =>
    if !r.ok then .error (jsOr r.errorField ("HTTP " ++ toString r.status))
    else .ok r.token

/-- The `data` object of the demo server's response body. -/
structure DemoData where
  token : Option String
  appid : Option String
deriving DecidableEq, Repr

/-- Parsed demo-server response: `{code, message?, data?}`. -/
structure DemoResp where
  code : Int
  message : Option String
  data : Option DemoData
deriving DecidableEq, Repr

/-- `getOptionsFromLocal()`: appid/certificate resolved from localStorage
falling back to the environment, each defaulting to `""`. -/
structure LocalOptions where
  appid : String
  certificate : String
deriving DecidableEq, Repr

/-- `getEncryptFromUrl()`: the `encryptedId`/`encryptedSecret` query
parameters of the page URL (each `string | null`). -/
structure UrlEncrypt where
  encryptedId : Option String
  encryptedSecret : Option String
deriving DecidableEq, Repr

/-- One external token request issued by the provider, with the
credentials it carried. -/
inductive TokenAttempt where
  | sign (transport : Transport) (appId appCertificate channelName : String)
      (uid : UidVal) (role : String)
  | demoEncrypted (channelName encryptedId encryptedSecret : String)
  | demoDirect (appId appCertificate channelName : String) (uid : UidVal)
deriving DecidableEq, Repr

/-- `respData.token || null`: a missing or empty token becomes `null`. -/
def demoTokenOf (d : Option DemoData) : Option String :=
  match d with
  | none => none
  | some dd =>
    match dd.token with
    | none => none
    | some t => if t = "" then none else some t

/-- The demo server's fetch + `code` check + token extraction, shared by
both branches of `agoraGetAppData`. -/
def demoFetch (net : FetchResult DemoResp) : Except String (Option String) :=
  match net with
  | .networkError m => .error m
  | .response r =>
    if r.code ≠ 0 then
      .error (jsOr r.message
        "Generate token error, please check your appid and appcertificate parameters")
    else .ok (demoTokenOf r.data)

/-- `agoraGetAppData` from `agora-utils.ts`: if the page URL carries truthy
`encryptedId` and `encryptedSecret`, POST to the encrypted demo endpoint;
otherwise, if no locally cached certificate, warn and return `null` with
no request; otherwise POST a direct-certificate request. The second
component is the list of requests actually issued. -/
def agoraGetAppData (uid : UidVal) (channel : String) (lo : LocalOptions)
    (url : UrlEncrypt) (net : FetchResult DemoResp) :
    Except String (Option String) × List TokenAttempt :=
  if jsTruthyOpt url.encryptedId && jsTruthyOpt url.encryptedSecret then
    (demoFetch net,
     [.demoEncrypted channel (jsOr url.encryptedId "") (jsOr url.encryptedSecret "")])
  else if lo.certificate = "" then
    (.ok none, [])
  else
    (demoFetch net, [.demoDirect lo.appid lo.certificate channel uid])

/-! ## Session controller config (`agora-config.ts`) -/

/-- The `mode` field of `AgoraConfig`. -/
inductive Mode where
  | rtc
  | live
deriving DecidableEq, Repr

/-- The `codec` field of `AgoraConfig`. -/
inductive Codec where
  | vp8
  | vp9
  | h264
deriving DecidableEq, Repr

/-- `AgoraConfig` from `agora-config.ts`; optional TS fields are `Option`s
(`none` models an absent key). -/
structure AgoraConfig where
  appId : String
  channel : String
  token : Option String := none
  uid : Option UidVal := none
  appCertificate : Option String := none
  mode : Option Mode := none
  codec : Option Codec := none
deriving DecidableEq, Repr

/-- The `AgoraClient` constructor's config merge
`{mode: 'rtc', codec: 'vp8', ...config}`: a key present in `config`
overrides the default, an absent key keeps it. -/
def constructorConfig (config : AgoraConfig) : AgoraConfig :=
  { config with
    mode := some (config.mode.getD .rtc),
    codec := some (config.codec.getD .vp8) }

/-- The `(mode, codec)` argument pair of an engine `createClient` call. -/
structure CreateClientArgs where
  mode : Mode
  codec : Codec
deriving DecidableEq, Repr

/-- `initClient`: the `createClient` call's arguments are the literals
`{mode: 'rtc', codec: 'vp8'}` ("Force RTC mode and VP8 codec"), written
independently of the stored config. -/
def initClientArgs (_config : AgoraConfig) : CreateClientArgs :=
  { mode := .rtc, codec := .vp8 }

/-! ## `AgoraClient.generateToken` -/

/-- The network environment a `generateToken` run sees: one response per
distinct endpoint, plus the page state `agoraGetAppData` reads. -/
structure TokenEnv where
  serverResp : FetchResult ServerResp
  backendResp : FetchResult BackendResp
  demoResp : FetchResult DemoResp
  localOptions : LocalOptions
  urlEncrypt : UrlEncrypt
deriving DecidableEq, Repr

/-- The exact error text thrown when every strategy yields no token. -/
def noMethodMsg : String :=
  "No token generation method available. Please provide App Certificate."

/-- `AgoraClient.generateToken`: with a truthy `appCertificate`, try
`generateTokenFromServer` (query-string GET) and on its failure fall back
to `generateTokenFromBackend` (JSON POST), both with
`(appId, appCertificate, channel, uid || 0, role)`; a failure of the
fallback propagates. Without a certificate, call `agoraGetAppData`; a
truthy token resolves, otherwise throw `noMethodMsg`. The outer
try/catch logs and rethrows, leaving the result unchanged. Returns the
result together with the ordered request trace. -/
def generateToken (cfg : AgoraConfig) (role : String) (env : TokenEnv) :
    Except String String × List TokenAttempt :=
  if jsTruthyOpt cfg.appCertificate then
    let cert := cfg.appCertificate.getD ""
    let a1 : TokenAttempt := .sign .queryGet cfg.appId cert cfg.channel (uidOr0 cfg.uid) role
    match generateTokenFromServer env.serverResp with
    | .ok t => (.ok t, [a1])
    | .error _ =>
      let a2 : TokenAttempt := .sign .jsonPost cfg.appId cert cfg.channel (uidOr0 cfg.uid) role
      match generateTokenFromBackend env.backendResp with
      | .ok t => (.ok t, [a1, a2])
      | .error e => (.error e, [a1, a2])
  else
    match agoraGetAppData (uidOr0 cfg.uid) cfg.channel env.localOptions env.urlEncrypt env.demoResp with
    | (.error e, att) => (.error e, att)
    | (.ok st, att) =>
      match st with
      | some t => if t = "" then (.error noMethodMsg, att) else (.ok t, att)
      | none => (.error noMethodMsg, att)

/-- The transport of a `sign` attempt (demo attempts are JSON POSTs). -/
def TokenAttempt.transport : TokenAttempt → Transport
  | .sign tr _ _ _ _ _ => tr
  | .demoEncrypted _ _ _ => .jsonPost
  | .demoDirect _ _ _ _ => .jsonPost

/-- Whether an attempt targeted the vendor demo server. -/
def TokenAttempt.isDemo : TokenAttempt → Bool
  | .sign _ _ _ _ _ _ => false
  | .demoEncrypted _ _ _ => true
  | .demoDirect _ _ _ _ => true

/-! ## `AgoraClient.join` -/

/-- An error object reaching `join`'s catch block: optional `code` and
`message` fields (a plain `Error` has `code === undefined`). -/
structure JoinErr where
  code : Option String
  message : Option String
deriving DecidableEq, Repr

/-- The catch block of `AgoraClient.join`: the fixed code→message table,
with the generic fallback `"Failed to join channel: " + (message || code
|| 'Unknown error')` for every other error. -/
def mapJoinError (e : JoinErr) : String :=
  if e.code = some "CAN_NOT_GET_GATEWAY_SERVER" then
    "Invalid App ID or network connection issue. Please verify your App ID is correct."
  else if e.code = some "INVALID_TOKEN" then
    "Invalid token. Please check your token or generate a new one."
  else if e.code = some "TOKEN_EXPIRED" then
    "Token has expired. Please generate a new token."
  else if e.code = some "INVALID_VENDOR_KEY" then
    "Invalid App ID. Please check your App ID from Agora Console."
  else if e.code = some "DYNAMIC_KEY_TIMEOUT" then
    "Token has expired. Please generate a new token."
  else
    "Failed to join channel: " ++ jsOr e.message (jsOr e.code "Unknown error")

/-- The message of the `Error` that `join` throws (inside its own try
block) when `generateToken` fails. -/
def tokenWrapMsg : String :=
  "Token generation failed. Please check your App Certificate or server configuration."

/-- One observable external effect of a `join` run. -/
inductive JoinEffect where
  | initClient
  | tokenProvider (role : String)
  | engineJoin (appId channel token : String) (uid : Option UidVal)
  | publishTracks
deriving DecidableEq, Repr

/-- Engine/environment behaviour during a `join` run: the token-provider
network environment, the engine `client.join` result (assigned uid or a
thrown error object), and the outcome of `createAndPublishTracks`. -/
structure JoinEnv where
  tokenEnv : TokenEnv
  engineJoin : Except JoinErr Nat
  publishErr : Option JoinErr := none
deriving Repr

/-- `AgoraClient.join(role)`: validate `appId` nonblank, `channel`
nonblank, and `appId.trim()` against the hex-32 pattern (each failure
throws before any client init or network call); then init the client;
then, inside the try block, use `config.token` if truthy, else invoke
`generateToken` (a provider failure is rethrown as `tokenWrapMsg`, and —
being inside the try — lands in the catch like every other error); then
`client.join(appId.trim(), channel.trim(), token, uid || null)`; then,
for a publisher, `createAndPublishTracks`; every error reaching the catch
is mapped by `mapJoinError`. Returns the result (assigned uid or mapped
error message) with the ordered effect trace. -/
def join (cfg : AgoraConfig) (isPublisher : Bool) (role : String) (env : JoinEnv) :
    Except String Nat × List JoinEffect :=
  if cfg.appId = "" ∨ (jsTrim cfg.appId) = "" then
    (.error "App ID is required and cannot be empty", [])
  else if cfg.channel = "" ∨ (jsTrim cfg.channel) = "" then
    (.error "Channel name is required and cannot be empty", [])
  else if !isHex32 (jsTrim cfg.appId) then
    (.error "Invalid App ID format. App ID should be a 32-character hexadecimal string.", [])
  else
    let eff0 : List JoinEffect := [.initClient]
    let tokenStep : Except JoinErr String × List JoinEffect :=
      if jsTruthyOpt cfg.token then (.ok (cfg.token.getD ""), eff0)
      else
        match (generateToken cfg role env.tokenEnv).1 with
        | .ok t => (.ok t, eff0 ++ [.tokenProvider role])
        | .error _ => (.error ⟨none, some tokenWrapMsg⟩, eff0 ++ [.tokenProvider role])
    match tokenStep with
    | (.error e, effs) => (.error (mapJoinError e), effs)
    | (.ok token, effs) =>
      let effs := effs ++ [.engineJoin (jsTrim cfg.appId) (jsTrim cfg.channel) token (uidOrNull cfg.uid)]
      match env.engineJoin with
      | .error e => (.error (mapJoinError e), effs)
      | .ok uid =>
        if isPublisher then
          match env.publishErr with
          | some e => (.error (mapJoinError e), effs ++ [.publishTracks])
          | none => (.ok uid, effs ++ [.publishTracks])
        else (.ok uid, effs)

/-- Whether an effect is an engine `client.join` call. -/
def JoinEffect.isEngineJoin : JoinEffect → Bool
  | .engineJoin _ _ _ _ => true
  | _ => false

/-- Whether an effect is a token-provider invocation. -/
def JoinEffect.isTokenProvider : JoinEffect → Bool
  | .tokenProvider _ => true
  | _ => false

/-! ## `AgoraClient.leave` and the hook's `leaveChannel` -/

/-- The mutable fields of an `AgoraClient` that `leave` touches: whether
the client handle, the local video track and the local audio track are
non-null, and the publisher flag. -/
structure ClientState where
  client : Bool
  localVideoTrack : Bool
  localAudioTrack : Bool
  isPublisher : Bool
deriving DecidableEq, Repr

/-- One engine/track interaction performed by `leave`. -/
inductive LeaveEffect where
  | videoStop
  | videoClose
  | audioStop
  | audioClose
  | engineLeave
deriving DecidableEq, Repr

/-- Behaviour of the track methods and `client.leave()` during one `leave`
run: `some m` means that call throws with message `m`. -/
structure LeaveEnv where
  videoStopErr : Option String := none
  videoCloseErr : Option String := none
  audioStopErr : Option String := none
  audioCloseErr : Option String := none
  engineLeaveErr : Option String := none
deriving DecidableEq, Repr

/-- The tail of `leave`'s try block from `await this.client.leave()` on:
a throw propagates (the catch rethrows) leaving `isPublisher` unchanged;
on success `isPublisher` is reset to `false`. -/
def engineLeaveStep (s : ClientState) (env : LeaveEnv) (effs : List LeaveEffect) :
    Except String Unit × ClientState × List LeaveEffect :=
  match env.engineLeaveErr with
  | some m => (.error m, s, effs ++ [.engineLeave])
  | none => (.ok (), { s with isPublisher := false }, effs ++ [.engineLeave])

/-- The tail of `leave`'s try block from the audio-track teardown on: a
throw in `stop()`/`close()` propagates before the `null` assignment, so
the track reference survives and no later step runs. -/
def audioLeaveStep (s : ClientState) (env : LeaveEnv) (effs : List LeaveEffect) :
    Except String Unit × ClientState × List LeaveEffect :=
  if s.localAudioTrack then
    match env.audioStopErr with
    | some m => (.error m, s, effs ++ [.audioStop])
    | none =>
      match env.audioCloseErr with
      | some m => (.error m, s, effs ++ [.audioStop, .audioClose])
      | none =>
        engineLeaveStep { s with localAudioTrack := false } env
          (effs ++ [.audioStop, .audioClose])
  else engineLeaveStep s env effs

/-- `AgoraClient.leave`: return immediately if the client handle is null
(the handle is never cleared by `leave` itself); otherwise one try block
runs video teardown, audio teardown, `client.leave()`, in that order,
and the catch rethrows the first error. Returns the result, the updated
state, and the ordered effect trace. -/
def leave (s : ClientState) (env : LeaveEnv) :
    Except String Unit × ClientState × List LeaveEffect :=
  if !s.client then (.ok (), s, [])
  else if s.localVideoTrack then
    match env.videoStopErr with
    | some m => (.error m, s, [.videoStop])
    | none =>
      match env.videoCloseErr with
      | some m => (.error m, s, [.videoStop, .videoClose])
      | none =>
        audioLeaveStep { s with localVideoTrack := false } env [.videoStop, .videoClose]
  else audioLeaveStep s env []

/-- The hook state of `useAgoraAudience` relevant to `leaveChannel`. -/
structure HookState where
  client : Option ClientState
  isJoined : Bool
  error : Option String
deriving DecidableEq, Repr

/-- `leaveChannel` from `useAgoraAudience.ts`: no-op unless `client` is
set and `isJoined`; otherwise clear the poll interval, await
`client.leave()`, and on success clear `client`, `isJoined`, `error`;
a thrown error is caught and stored in `error` (the client reference and
joined flag survive). Never rethrows. -/
def leaveChannel (h : HookState) (env : LeaveEnv) : HookState × List LeaveEffect :=
  match h.client with
  | none => (h, [])
  | some c =>
    if !h.isJoined then (h, [])
    else
      match leave c env with
      | (.ok _, _, effs) => ({ client := none, isJoined := false, error := none }, effs)
      | (.error m, c', effs) => ({ h with client := some c', error := some m }, effs)

/-! ## Token endpoint (`POST /api/agora/token`) -/

/-- JS `parseInt` on a decimal string: skip leading whitespace, read an
optional sign and then leading decimal digits; `none` models `NaN`
(no digits). Trailing non-digits are ignored, as `parseInt` does. -/
def jsParseInt (s : String) : Option Int :=
  let cs := s.toList.dropWhile Char.isWhitespace
  let signed : Int × List Char :=
    match cs with
    | '-' :: r => (-1, r)
    | '+' :: r => (1, r)
    | _ => (1, cs)
  let ds := signed.2.takeWhile Char.isDigit
  if ds.isEmpty then none
  else some (signed.1 * (ds.foldl (fun a c => a * 10 + (c.toNat - '0'.toNat)) 0 : Nat))

/-- `parseInt(uid) || 0`: `NaN` (and `0` itself) collapse to `0`. -/
def jsParseIntOr0 (s : String) : Int :=
  match jsParseInt s with
  | some n => if n = 0 then 0 else n
  | none => 0

/-- The signing primitive's role enum. -/
inductive RtcRole where
  | PUBLISHER
  | SUBSCRIBER
deriving DecidableEq, Repr

/-- One `RtcTokenBuilder.buildTokenWithUid` call with its arguments. -/
structure BuildCall where
  appId : String
  appCertificate : String
  channelName : String
  uid : Int
  role : RtcRole
  tokenExpire : Int
  privilegeExpire : Int
deriving DecidableEq, Repr

/-- The parsed JSON body of a POST token request; absent keys are `none`
(destructuring defaults for `role` and `expireTimeInSeconds` apply in the
handler). -/
structure TokenPostBody where
  appId : Option String := none
  appCertificate : Option String := none
  channelName : Option String := none
  uid : Option UidVal := none
  role : Option String := none
  expireTimeInSeconds : Option Int := none
deriving DecidableEq, Repr

/-- A response produced by the POST handler: 200 with the token and
echoed metadata, 400 with an error message, or 500 with an error message
and the thrown details. -/
inductive PostResponse where
  | ok (token : String) (uid : Int) (channel : String) (role : String)
      (expireTime generatedAt : Int)
  | badRequest (error : String)
  | serverError (error details : String)
deriving DecidableEq, Repr

/-- The coerced uid of the POST handler:
`typeof uid === 'string' ? parseInt(uid) || 0 : uid || 0`. -/
def postUidNum (uid : Option UidVal) : Int :=
  match uid with
  | some (.str s) => jsParseIntOr0 s
  | some (.num n) => if n = 0 then 0 else n
  | none => 0

/-- `POST /api/agora/token` with a successfully parsed body: require
truthy `appId`, `appCertificate`, `channelName` (else 400); require the
hex-32 app-id pattern (else 400); otherwise compute
`privilegeExpiredTs = now + expireTimeInSeconds` (default 3600), map role
`'publisher'` to `PUBLISHER` and anything else to `SUBSCRIBER`, coerce
the uid, and call the signing primitive once; its exception yields a 500
with the message as details. `now` is `Math.floor(Date.now()/1000)` and
`build` the signing primitive. The second component is the list of
signing calls made. -/
def tokenPOST (body : TokenPostBody) (now : Int)
    (build : BuildCall → Except String String) :
    PostResponse × List BuildCall :=
  let role := body.role.getD "audience"
  let expireTimeInSeconds := body.expireTimeInSeconds.getD 3600
  if !(jsTruthyOpt body.appId) || !(jsTruthyOpt body.appCertificate)
      || !(jsTruthyOpt body.channelName) then
    (.badRequest "App ID, App Certificate, and Channel Name are required", [])
  else if !isHex32 (body.appId.getD "") then
    (.badRequest "Invalid App ID format. App ID should be a 32-character hexadecimal string.", [])
  else
    let privilegeExpiredTs := now + expireTimeInSeconds
    let agoraRole := if role = "publisher" then RtcRole.PUBLISHER else RtcRole.SUBSCRIBER
    let uidNum := postUidNum body.uid
    let call : BuildCall :=
      { appId := body.appId.getD "", appCertificate := body.appCertificate.getD "",
        channelName := body.channelName.getD "", uid := uidNum, role := agoraRole,
        tokenExpire := privilegeExpiredTs, privilegeExpire := privilegeExpiredTs }
    match build call with
    | .ok token =>
      (.ok token uidNum (body.channelName.getD "") role privilegeExpiredTs now, [call])
    | .error m => (.serverError "Failed to generate token" m, [call])

/-- The `BuildCall` the POST handler makes for a given valid body. -/
def postBuildCall (body : TokenPostBody) (now : Int) : BuildCall :=
  { appId := body.appId.getD "", appCertificate := body.appCertificate.getD "",
    channelName := body.channelName.getD "",
    uid := postUidNum body.uid,
    role := if body.role.getD "audience" = "publisher" then .PUBLISHER else .SUBSCRIBER,
    tokenExpire := now + body.expireTimeInSeconds.getD 3600,
    privilegeExpire := now + body.expireTimeInSeconds.getD 3600 }

/-! ## Theorems -/

/-- C9: `validateAgoraToken` returns true iff the token starts with `006`
or `007` and has length strictly greater than 50; in particular it is
false for every token not starting with `006`/`007` or of length at most
50, and true for `"007"` followed by 60 `'x'` characters. -/
theorem validateAgoraToken_spec :
    (∀ t : String, (validateAgoraToken t = true ↔
      (['0', '0', '6'] <+: t.data ∨ ['0', '0', '7'] <+: t.data) ∧ t.length > 50)) ∧
    validateAgoraToken ("007" ++ String.mk (List.replicate 60 'x')) = true := by
  constructor
  · intro t
    have key : ∀ p : List Char, p.length = 3 → (p <+: t.data ↔ t.data.take 3 = p) := by
      intro p hp
      rw [List.prefix_iff_eq_take, hp]
      exact eq_comm
    have hpat : versionPatternTest t = true ↔
        (['0', '0', '6'] <+: t.data ∨ ['0', '0', '7'] <+: t.data) := by
      unfold versionPatternTest
      constructor
      · intro h
        rcases Bool.or_eq_true_iff.mp h with h | h
        · exact Or.inl ((key ['0', '0', '6'] rfl).mpr (of_decide_eq_true h))
        · exact Or.inr ((key ['0', '0', '7'] rfl).mpr (of_decide_eq_true h))
      · rintro (h | h)
        · exact Bool.or_eq_true_iff.mpr
            (Or.inl (decide_eq_true ((key ['0', '0', '6'] rfl).mp h)))
        · exact Bool.or_eq_true_iff.mpr
            (Or.inr (decide_eq_true ((key ['0', '0', '7'] rfl).mp h)))
    by_cases h : t = ""
    · subst h
      constructor
      · intro hf
        exact absurd hf (by decide)
      · intro hc
        exact absurd (hpat.mpr hc.1) (by decide)
    · unfold validateAgoraToken
      rw [if_neg h]
      cases hb : versionPatternTest t with
      | false =>
        constructor
        · intro hf
          simp at hf
        · intro hc
          exact absurd (hpat.mpr hc.1) (by simp [hb])
      | true =>
        simp only [Bool.not_true, Bool.false_eq_true, if_false, decide_eq_true_eq]
        exact ⟨fun hl => ⟨hpat.mp hb, hl⟩, fun hc => hc.2⟩
  · decide

/-- C10: the engine client is always created with mode `rtc` and codec
`vp8`, for every config — including one that explicitly supplies
`live`/`h264` — even though the constructor-merged config retains the
caller's values. -/
theorem initClient_forces_rtc_vp8 :
    ∀ cfg : AgoraConfig,
      initClientArgs (constructorConfig cfg) = { mode := .rtc, codec := .vp8 } ∧
      initClientArgs (constructorConfig
        { cfg with mode := some .live, codec := some .h264 }) =
        { mode := .rtc, codec := .vp8 } ∧
      (constructorConfig { cfg with mode := some .live, codec := some .h264 }).mode =
        some .live := by
  intro cfg
  exact ⟨rfl, rfl, rfl⟩

/-- C1 (amended): for every certificate-bearing config, `generateToken`
tries the query-string GET signing variant first — when it succeeds, its
token is the result and it is the only request issued — and on any
failure of it (network error, non-2xx, or malformed response) falls
through to the JSON POST variant with the same credentials; in
particular, if the first variant fails and the JSON POST returns token
`t`, `generateToken` resolves to `t`. -/
theorem generateToken_cert_fallback (cfg : AgoraConfig) (role : String)
    (env : TokenEnv) (hc : jsTruthyOpt cfg.appCertificate = true) :
    (∀ t, generateTokenFromServer env.serverResp = .ok t →
      generateToken cfg role env =
        (.ok t, [.sign .queryGet cfg.appId (cfg.appCertificate.getD "") cfg.channel
          (uidOr0 cfg.uid) role])) ∧
    (∀ e t, generateTokenFromServer env.serverResp = .error e →
      generateTokenFromBackend env.backendResp = .ok t →
      generateToken cfg role env =
        (.ok t,
         [.sign .queryGet cfg.appId (cfg.appCertificate.getD "") cfg.channel
            (uidOr0 cfg.uid) role,
          .sign .jsonPost cfg.appId (cfg.appCertificate.getD "") cfg.channel
            (uidOr0 cfg.uid) role])) := by
  constructor
  · intro t hs
    simp only [generateToken, hc, if_true, hs]
  · intro e t hs hb
    simp only [generateToken, hc, if_true, hs, hb]

/-- C1 counterexample: with both signing endpoints succeeding — the
query-string GET returning `"TG"`, the JSON POST returning `"TP"` —
`generateToken` resolves to `"TG"` and issues exactly one request, the
query-string GET. So the endpoint tried first is the query-string GET,
not the JSON POST, and the fallback variant is the JSON POST: the
claim's identification of the primary/secondary transport shapes is
reversed. -/
theorem generateToken_cex_primary_not_post :
    generateToken
      { appId := "app1", channel := "ch", appCertificate := some "cert1" } "audience"
      { serverResp := .response
          { ok := true, status := 200, errorField := none, code := 0,
            message := none, data := some { token := "TG" } },
        backendResp := .response
          { ok := true, status := 200, errorField := none, token := "TP" },
        demoResp := .networkError "unused",
        localOptions := { appid := "", certificate := "" },
        urlEncrypt := { encryptedId := none, encryptedSecret := none } } =
      (.ok "TG", [.sign .queryGet "app1" "cert1" "ch" (.num 0) "audience"]) ∧
    (Except.ok "TG" : Except String String) ≠ .ok "TP" := by
  exact ⟨rfl, by decide⟩

/-- C1 witness: a concrete certificate-bearing config where the first
variant (query-string GET) fails with a network error and the JSON POST
returns `"T1"`: `generateToken` resolves to `"T1"`. -/
theorem generateToken_cert_fallback_witness :
    generateToken
      { appId := "app1", channel := "ch", appCertificate := some "cert1" } "audience"
      { serverResp := .networkError "network down",
        backendResp := .response
          { ok := true, status := 200, errorField := none, token := "T1" },
        demoResp := .networkError "unused",
        localOptions := { appid := "", certificate := "" },
        urlEncrypt := { encryptedId := none, encryptedSecret := none } } =
      (.ok "T1", [.sign .queryGet "app1" "cert1" "ch" (.num 0) "audience",
                  .sign .jsonPost "app1" "cert1" "ch" (.num 0) "audience"]) :=
  (generateToken_cert_fallback _ "audience" _ (by decide)).2 "network down" "T1" rfl rfl

/-- C2 (amended): only when no certificate is present does `generateToken`
attempt the vendor demo-token server — an encrypted-credential request
when the page URL carries truthy `encryptedId`/`encryptedSecret`, else a
direct-certificate request with locally cached credentials, else no
request at all — and in that path, if the demo server yields no token,
it fails with exactly `noMethodMsg` and never resolves to an empty
token. When a certificate is present and both signing-endpoint
strategies fail, the second strategy's error propagates and no demo
request is issued. -/
theorem generateToken_demo_path (cfg : AgoraConfig) (role : String) (env : TokenEnv) :
    (jsTruthyOpt cfg.appCertificate = false →
      ((∀ t, (generateToken cfg role env).1 = .ok t → t ≠ "") ∧
       ((agoraGetAppData (uidOr0 cfg.uid) cfg.channel env.localOptions env.urlEncrypt
           env.demoResp).1 = .ok none →
         (generateToken cfg role env).1 = .error noMethodMsg) ∧
       (generateToken cfg role env).2 =
         (agoraGetAppData (uidOr0 cfg.uid) cfg.channel env.localOptions env.urlEncrypt
           env.demoResp).2 ∧
       ((jsTruthyOpt env.urlEncrypt.encryptedId &&
           jsTruthyOpt env.urlEncrypt.encryptedSecret) = true →
         (generateToken cfg role env).2 =
           [.demoEncrypted cfg.channel (jsOr env.urlEncrypt.encryptedId "")
              (jsOr env.urlEncrypt.encryptedSecret "")]) ∧
       ((jsTruthyOpt env.urlEncrypt.encryptedId &&
           jsTruthyOpt env.urlEncrypt.encryptedSecret) = false →
         env.localOptions.certificate ≠ "" →
         (generateToken cfg role env).2 =
           [.demoDirect env.localOptions.appid env.localOptions.certificate cfg.channel
              (uidOr0 cfg.uid)]) ∧
       ((jsTruthyOpt env.urlEncrypt.encryptedId &&
           jsTruthyOpt env.urlEncrypt.encryptedSecret) = false →
         env.localOptions.certificate = "" →
         generateToken cfg role env = (.error noMethodMsg, [])))) ∧
    (jsTruthyOpt cfg.appCertificate = true →
      ∀ e1 e2, generateTokenFromServer env.serverResp = .error e1 →
        generateTokenFromBackend env.backendResp = .error e2 →
        (generateToken cfg role env).1 = .error e2 ∧
        ((generateToken cfg role env).2.all fun a => !a.isDemo) = true) := by
  constructor
  · intro hc
    rcases ha : agoraGetAppData (uidOr0 cfg.uid) cfg.channel env.localOptions
      env.urlEncrypt env.demoResp with ⟨r, att⟩
    have htr : (generateToken cfg role env).2 = att := by
      simp only [generateToken, hc, Bool.false_eq_true, if_false, ha]
      rcases r with e | st
      · rfl
      · rcases st with _ | t'
        · rfl
        · by_cases ht : t' = "" <;> simp [ht]
    refine ⟨?_, ?_, ?_, ?_, ?_, ?_⟩
    · intro t hok
      simp only [generateToken, hc, Bool.false_eq_true, if_false, ha] at hok
      rcases r with e | st
      · simp at hok
      · rcases st with _ | t'
        · simp at hok
        · by_cases ht : t' = ""
          · simp [ht] at hok
          · simp [ht] at hok
            exact hok ▸ ht
    · intro hnone
      have hr : r = Except.ok none := hnone
      subst hr
      simp only [generateToken, hc, Bool.false_eq_true, if_false, ha]
    · exact htr
    · intro henc
      have haE : agoraGetAppData (uidOr0 cfg.uid) cfg.channel env.localOptions
          env.urlEncrypt env.demoResp =
          (demoFetch env.demoResp,
           [.demoEncrypted cfg.channel (jsOr env.urlEncrypt.encryptedId "")
              (jsOr env.urlEncrypt.encryptedSecret "")]) := by
        simp only [agoraGetAppData, henc, if_true]
      rw [haE] at ha
      have h2 := congrArg Prod.snd ha
      rw [htr]
      exact h2.symm
    · intro henc hcert
      have haD : agoraGetAppData (uidOr0 cfg.uid) cfg.channel env.localOptions
          env.urlEncrypt env.demoResp =
          (demoFetch env.demoResp,
           [.demoDirect env.localOptions.appid env.localOptions.certificate
              cfg.channel (uidOr0 cfg.uid)]) := by
        simp only [agoraGetAppData, henc, Bool.false_eq_true, if_false, if_neg hcert]
      rw [haD] at ha
      have h2 := congrArg Prod.snd ha
      rw [htr]
      exact h2.symm
    · intro henc hcert
      have haN : agoraGetAppData (uidOr0 cfg.uid) cfg.channel env.localOptions
          env.urlEncrypt env.demoResp = (Except.ok none, []) := by
        simp only [agoraGetAppData, henc, Bool.false_eq_true, if_false, if_pos hcert]
      rw [haN] at ha
      have h1 : (Except.ok none : Except String (Option String)) = r :=
        congrArg Prod.fst ha
      have h2 : ([] : List TokenAttempt) = att := congrArg Prod.snd ha
      subst h1
      subst h2
      have hfst : (generateToken cfg role env).1 = .error noMethodMsg := by
        simp only [generateToken, hc, Bool.false_eq_true, if_false, haN]
      calc generateToken cfg role env
          = ((generateToken cfg role env).1, (generateToken cfg role env).2) := rfl
        _ = (.error noMethodMsg, []) := by rw [hfst, htr]
  · intro hc e1 e2 hs hb
    constructor
    · simp only [generateToken, hc, if_true, hs, hb]
    · simp only [generateToken, hc, if_true, hs, hb, List.all_cons, List.all_nil,
        TokenAttempt.isDemo, Bool.not_false, Bool.and_self]

/-- C2 counterexample: with a certificate present and both signing
endpoints failing (`"e1"`, `"e2"`), `generateToken` rejects with `"e2"`
(the second strategy's error) after issuing only the two signing
requests — no demo-server request — even though the very same
`agoraGetAppData` call would have returned token `"TD"`; and the error
is not the `noMethodMsg` text the claim requires. -/
theorem generateToken_cex_endpoint_failures_skip_demo :
    generateToken
      { appId := "app1", channel := "ch", appCertificate := some "cert1" } "audience"
      { serverResp := .networkError "e1",
        backendResp := .networkError "e2",
        demoResp := .response
          { code := 0, message := none,
            data := some { token := some "TD", appid := none } },
        localOptions := { appid := "la", certificate := "lc" },
        urlEncrypt := { encryptedId := none, encryptedSecret := none } } =
      (.error "e2", [.sign .queryGet "app1" "cert1" "ch" (.num 0) "audience",
                     .sign .jsonPost "app1" "cert1" "ch" (.num 0) "audience"]) ∧
    (agoraGetAppData (.num 0) "ch" { appid := "la", certificate := "lc" }
       { encryptedId := none, encryptedSecret := none }
       (.response
          { code := 0, message := none,
            data := some { token := some "TD", appid := none } })).1 = .ok (some "TD") ∧
    ("e2" : String) ≠ noMethodMsg := by
  refine ⟨rfl, rfl, ?_⟩
  simp [noMethodMsg]

/-- C2 witness: a concrete config with no certificate, no URL-encrypted
parameters and no locally cached certificate: `generateToken` issues no
request at all and rejects with exactly `noMethodMsg`. -/
theorem generateToken_demo_path_witness :
    generateToken { appId := "app1", channel := "ch" } "audience"
      { serverResp := .networkError "unused",
        backendResp := .networkError "unused2",
        demoResp := .networkError "unused3",
        localOptions := { appid := "", certificate := "" },
        urlEncrypt := { encryptedId := none, encryptedSecret := none } } =
      (.error noMethodMsg, []) :=
  ((generateToken_demo_path _ "audience" _).1 (by decide)).2.2.2.2.2 (by decide) rfl

/-- C3 counterexample: after a successful `leave()` on a joined client
with both local tracks, the client handle is still set (`leave` never
clears it), so a second direct `leave()` call interacts with the engine
again — its effect trace is `[engineLeave]`, not empty. -/
theorem leave_cex_second_call_engine_interaction :
    (leave ⟨true, true, true, true⟩ {}).1 = .ok () ∧
    (leave ⟨true, true, true, true⟩ {}).2.1.client = true ∧
    (leave ((leave ⟨true, true, true, true⟩ {}).2.1) {}).2.2 = [.engineLeave] := by
  exact ⟨rfl, rfl, rfl⟩

/-- C3 (amended): `AgoraClient.leave` is a no-op (no effects, state
unchanged, no error) when the client handle is null — i.e. when the
client was never initialised; the claimed two-calls-in-a-row idempotence
holds one level up, at the hook: a successful `leaveChannel` clears the
client reference and the joined flag, so a second `leaveChannel` returns
immediately with no engine interaction and no error. (A second direct
`AgoraClient.leave` on a once-joined controller instead calls the
engine's leave again, since the handle is never cleared.) -/
theorem leave_noop_and_hook_idempotent :
    (∀ (s : ClientState) (env : LeaveEnv), s.client = false →
      leave s env = (.ok (), s, [])) ∧
    (∀ (c : ClientState) (err : Option String) (env env2 : LeaveEnv),
      (leave c env).1 = .ok () →
      leaveChannel
        (leaveChannel { client := some c, isJoined := true, error := err } env).1 env2 =
        ((leaveChannel { client := some c, isJoined := true, error := err } env).1,
         [])) := by
  constructor
  · intro s env hs
    simp [leave, hs]
  · intro c err env env2 hok
    rcases hl : leave c env with ⟨r, c', effs⟩
    rw [hl] at hok
    have hr : r = .ok () := hok
    subst hr
    have h1 : (leaveChannel { client := some c, isJoined := true, error := err } env).1 =
        { client := none, isJoined := false, error := none } := by
      simp only [leaveChannel, hl, Bool.not_true, Bool.false_eq_true, if_false]
    rw [h1]
    rfl

/-- C3 witness: a concrete joined hook session where the first
`leaveChannel` succeeds: the second `leaveChannel` leaves the state
untouched and performs no effects. -/
theorem leave_noop_and_hook_idempotent_witness :
    leaveChannel (leaveChannel ⟨some ⟨true, true, true, true⟩, true, none⟩ {}).1 {} =
      ((leaveChannel ⟨some ⟨true, true, true, true⟩, true, none⟩ {}).1, []) :=
  leave_noop_and_hook_idempotent.2 ⟨true, true, true, true⟩ none {} {} rfl

/-- C4 counterexample: with an active client and both tracks, a throwing
`videoTrack.stop()` is not ignored: `leave` surfaces that error, the
video-track reference survives, and neither the audio teardown nor the
engine leave runs (the trace is just `[videoStop]`). -/
theorem leave_cex_video_error_not_ignored :
    leave { client := true, localVideoTrack := true, localAudioTrack := true,
            isPublisher := true } { videoStopErr := some "video stop failed" } =
      (.error "video stop failed",
       { client := true, localVideoTrack := true, localAudioTrack := true,
         isPublisher := true },
       [.videoStop]) ∧
    LeaveEffect.engineLeave ∉ [LeaveEffect.videoStop] ∧
    (Except.error "video stop failed" : Except String Unit) ≠ .ok () := by
  exact ⟨rfl, by decide, by decide⟩

/-- C4 (amended): with an active client, `leave` runs video teardown,
audio teardown, engine leave, publisher-flag reset, in that order — but
the steps are all inside one try block, not independently wrapped: when
every call succeeds the effects occur in the stated order and the flag
resets; an error thrown by `videoTrack.stop()` is surfaced and aborts
every remaining step; an error from the engine's `leave()` is surfaced
to the caller with the publisher flag left unchanged. -/
theorem leave_teardown_order (s : ClientState) (env : LeaveEnv) (hs : s.client = true) :
    (env.videoStopErr = none → env.videoCloseErr = none → env.audioStopErr = none →
      env.audioCloseErr = none → env.engineLeaveErr = none →
      leave s env = (.ok (),
        { client := s.client, localVideoTrack := false, localAudioTrack := false,
          isPublisher := false },
        (if s.localVideoTrack then [.videoStop, .videoClose] else []) ++
        (if s.localAudioTrack then [.audioStop, .audioClose] else []) ++
        [.engineLeave])) ∧
    (∀ m, s.localVideoTrack = true → env.videoStopErr = some m →
      leave s env = (.error m, s, [.videoStop])) ∧
    (∀ m, env.videoStopErr = none → env.videoCloseErr = none → env.audioStopErr = none →
      env.audioCloseErr = none → env.engineLeaveErr = some m →
      (leave s env).1 = .error m ∧
      (leave s env).2.1.isPublisher = s.isPublisher ∧
      (leave s env).2.2 =
        (if s.localVideoTrack then [.videoStop, .videoClose] else []) ++
        (if s.localAudioTrack then [.audioStop, .audioClose] else []) ++
        [.engineLeave]) := by
  refine ⟨?_, ?_, ?_⟩
  · intro h1 h2 h3 h4 h5
    cases hv : s.localVideoTrack <;> cases ha : s.localAudioTrack <;>
      simp [leave, audioLeaveStep, engineLeaveStep, hs, hv, ha, h1, h2, h3, h4, h5]
  · intro m hv hm
    simp [leave, hs, hv, hm]
  · intro m h1 h2 h3 h4 h5
    cases hv : s.localVideoTrack <;> cases ha : s.localAudioTrack <;>
      simp [leave, audioLeaveStep, engineLeaveStep, hs, hv, ha, h1, h2, h3, h4, h5]

/-- C4 witness: a concrete joined publisher session where every call
succeeds: the effects happen in exactly the order video-stop,
video-close, audio-stop, audio-close, engine-leave, and the publisher
flag is reset. -/
theorem leave_teardown_order_witness :
    leave { client := true, localVideoTrack := true, localAudioTrack := true,
            isPublisher := true } {} =
      (.ok (),
       { client := true, localVideoTrack := false, localAudioTrack := false,
         isPublisher := false },
       [.videoStop, .videoClose, .audioStop, .audioClose, .engineLeave]) :=
  (leave_teardown_order _ {} rfl).1 rfl rfl rfl rfl rfl

/-- C5: for a config whose appId is empty/blank, whose channel is
empty/blank, or whose (trimmed) appId fails the hex-32 check, `join`
fails immediately with the corresponding user-correctable error and an
empty effect trace — in particular neither the Token Provider nor the
engine join (nor even client init) is invoked. -/
theorem join_validation_fail_fast (cfg : AgoraConfig) (pub : Bool) (role : String)
    (env : JoinEnv) :
    ((cfg.appId = "" ∨ jsTrim cfg.appId = "") →
      join cfg pub role env = (.error "App ID is required and cannot be empty", [])) ∧
    (¬(cfg.appId = "" ∨ jsTrim cfg.appId = "") →
      (cfg.channel = "" ∨ jsTrim cfg.channel = "") →
      join cfg pub role env =
        (.error "Channel name is required and cannot be empty", [])) ∧
    (¬(cfg.appId = "" ∨ jsTrim cfg.appId = "") →
      ¬(cfg.channel = "" ∨ jsTrim cfg.channel = "") →
      isHex32 (jsTrim cfg.appId) = false →
      join cfg pub role env =
        (.error
          "Invalid App ID format. App ID should be a 32-character hexadecimal string.",
         [])) := by
  refine ⟨?_, ?_, ?_⟩
  · intro h
    unfold join
    rw [if_pos h]
  · intro h1 h2
    unfold join
    rw [if_neg h1, if_pos h2]
  · intro h1 h2 h3
    unfold join
    rw [if_neg h1, if_neg h2]
    simp [h3]

/-- C5 witness: a config with a well-formed appId but empty channel fails
with the channel-required error and an empty effect trace. -/
theorem join_validation_fail_fast_witness :
    join { appId := "aabbccddeeff00112233445566778899", channel := "" } false "audience"
      { tokenEnv :=
          { serverResp := .networkError "x", backendResp := .networkError "x",
            demoResp := .networkError "x", localOptions := ⟨"", ""⟩,
            urlEncrypt := ⟨none, none⟩ },
        engineJoin := .ok 7 } =
      (.error "Channel name is required and cannot be empty", []) :=
  (join_validation_fail_fast _ false "audience" _).2.1 (by decide) (Or.inl rfl)

/-- C6 (amended): when the caller supplies no token and the Token
Provider fails, `join` aborts before any engine join — the effects are
just the client init and the provider invocation — and the surfaced
error is the token-failure text wrapped once more by the generic catch
mapping: "Failed to join channel: Token generation failed. Please check
your App Certificate or server configuration." (the wrapped `Error` is
thrown inside the same try block whose catch maps every error). -/
theorem join_token_failure (cfg : AgoraConfig) (pub : Bool) (role : String)
    (env : JoinEnv) (e : String)
    (hA : ¬(cfg.appId = "" ∨ jsTrim cfg.appId = ""))
    (hC : ¬(cfg.channel = "" ∨ jsTrim cfg.channel = ""))
    (hH : isHex32 (jsTrim cfg.appId) = true)
    (ht : jsTruthyOpt cfg.token = false)
    (hf : (generateToken cfg role env.tokenEnv).1 = .error e) :
    join cfg pub role env =
      (.error ("Failed to join channel: " ++ tokenWrapMsg),
       [.initClient, .tokenProvider role]) := by
  unfold join
  rw [if_neg hA, if_neg hC]
  rcases hg : (generateToken cfg role env.tokenEnv).1 with e' | t'
  · simp only [hH, Bool.not_true, Bool.false_eq_true, if_false, ht, hg]
    rfl
  · rw [hg] at hf
    exact absurd hf (by simp)

/-- C6 counterexample: a concrete valid config with no caller token and
every provider strategy failing: `join` surfaces
"Failed to join channel: Token generation failed. Please check your App
Certificate or server configuration." — not the bare token-failure
message the claim requires — and attempts no engine join. -/
theorem join_cex_token_failure_msg_wrapped :
    join { appId := "aabbccddeeff00112233445566778899", channel := "room1" } false
      "audience"
      { tokenEnv :=
          { serverResp := .networkError "x", backendResp := .networkError "x",
            demoResp := .networkError "x", localOptions := ⟨"", ""⟩,
            urlEncrypt := ⟨none, none⟩ },
        engineJoin := .ok 7 } =
      (.error ("Failed to join channel: " ++
        "Token generation failed. Please check your App Certificate or server configuration."),
       [.initClient, .tokenProvider "audience"]) ∧
    ("Failed to join channel: " ++
        "Token generation failed. Please check your App Certificate or server configuration." : String) ≠
      "Token generation failed. Please check your App Certificate or server configuration." ∧
    (∀ eff ∈ [JoinEffect.initClient, JoinEffect.tokenProvider "audience"],
      eff.isEngineJoin = false) := by
  refine ⟨rfl, by decide, by decide⟩

/-- C6 witness: the amended statement at a concrete config — no caller
token, all provider strategies failing — yields the wrapped message and
no engine-join effect. -/
theorem join_token_failure_witness :
    join { appId := "aabbccddeeff00112233445566778899", channel := "room2" } false
      "audience"
      { tokenEnv :=
          { serverResp := .networkError "y", backendResp := .networkError "y",
            demoResp := .networkError "y", localOptions := ⟨"", ""⟩,
            urlEncrypt := ⟨none, none⟩ },
        engineJoin := .ok 7 } =
      (.error ("Failed to join channel: " ++ tokenWrapMsg),
       [.initClient, .tokenProvider "audience"]) :=
  join_token_failure _ false "audience" _ noMethodMsg (by decide) (by decide)
    (by decide) rfl rfl

/-- C7: an engine error surfaced during `join` is translated by the fixed
mapping; `INVALID_TOKEN` maps exactly to "Invalid token. Please check
your token or generate a new one."; every unrecognized code falls back to
"Failed to join channel: " followed by the error's message, else its
code, else "Unknown error". -/
theorem join_engine_error_mapping (cfg : AgoraConfig) (pub : Bool) (role : String)
    (env : JoinEnv) (e : JoinErr)
    (hA : ¬(cfg.appId = "" ∨ jsTrim cfg.appId = ""))
    (hC : ¬(cfg.channel = "" ∨ jsTrim cfg.channel = ""))
    (hH : isHex32 (jsTrim cfg.appId) = true)
    (ht : jsTruthyOpt cfg.token = true)
    (he : env.engineJoin = .error e) :
    (join cfg pub role env).1 = .error (mapJoinError e) ∧
    (∀ m, mapJoinError ⟨some "INVALID_TOKEN", m⟩ =
      "Invalid token. Please check your token or generate a new one.") ∧
    (∀ c m, c ∉ (["CAN_NOT_GET_GATEWAY_SERVER", "INVALID_TOKEN", "TOKEN_EXPIRED",
        "INVALID_VENDOR_KEY", "DYNAMIC_KEY_TIMEOUT"] : List String) →
      mapJoinError ⟨some c, m⟩ =
        "Failed to join channel: " ++ jsOr m (jsOr (some c) "Unknown error")) := by
  refine ⟨?_, ?_, ?_⟩
  · unfold join
    rw [if_neg hA, if_neg hC]
    simp only [hH, Bool.not_true, Bool.false_eq_true, if_false, ht, if_true, he]
  · intro m
    rfl
  · intro c m hc
    simp only [List.mem_cons, List.not_mem_nil, or_false, not_or] at hc
    obtain ⟨h1, h2, h3, h4, h5⟩ := hc
    unfold mapJoinError
    rw [if_neg (by simpa using h1), if_neg (by simpa using h2),
      if_neg (by simpa using h3), if_neg (by simpa using h4),
      if_neg (by simpa using h5)]

/-- C7 witness: a concrete valid join with a supplied token where the
engine rejects with code `INVALID_TOKEN`: the surfaced error is the
mapped message. -/
theorem join_engine_error_mapping_witness :
    (join
      { appId := "aabbccddeeff00112233445566778899", channel := "room3",
        token := some "tok" } false "audience"
      { tokenEnv :=
          { serverResp := .networkError "z", backendResp := .networkError "z",
            demoResp := .networkError "z", localOptions := ⟨"", ""⟩,
            urlEncrypt := ⟨none, none⟩ },
        engineJoin := .error ⟨some "INVALID_TOKEN", none⟩ }).1 =
      .error (mapJoinError ⟨some "INVALID_TOKEN", none⟩) := by
  exact (join_engine_error_mapping _ false "audience" _ ⟨some "INVALID_TOKEN", none⟩
    (by decide) (by decide) (by decide) (by decide) rfl).1

/-- C8: the POST token endpoint returns 400 with a descriptive message
when `appId`, `appCertificate` or `channelName` is missing (falsy) or
when `appId` fails the hex-32 pattern; otherwise it calls the signing
primitive once with `expireTime = now + expireTimeInSeconds` (default
3600), role `publisher` mapped to the publisher enum and any other role
to subscriber, and the uid coerced to an integer (0 on parse failure);
a signing exception yields a 500 carrying the underlying message. -/
theorem tokenPOST_spec (body : TokenPostBody) (now : Int)
    (build : BuildCall → Except String String) :
    ((jsTruthyOpt body.appId = false ∨ jsTruthyOpt body.appCertificate = false ∨
        jsTruthyOpt body.channelName = false) →
      tokenPOST body now build =
        (.badRequest "App ID, App Certificate, and Channel Name are required", [])) ∧
    (jsTruthyOpt body.appId = true → jsTruthyOpt body.appCertificate = true →
      jsTruthyOpt body.channelName = true → isHex32 (body.appId.getD "") = false →
      tokenPOST body now build =
        (.badRequest
          "Invalid App ID format. App ID should be a 32-character hexadecimal string.",
         [])) ∧
    (∀ t, jsTruthyOpt body.appId = true → jsTruthyOpt body.appCertificate = true →
      jsTruthyOpt body.channelName = true → isHex32 (body.appId.getD "") = true →
      build (postBuildCall body now) = .ok t →
      tokenPOST body now build =
        (.ok t (postUidNum body.uid) (body.channelName.getD "")
           (body.role.getD "audience") (now + body.expireTimeInSeconds.getD 3600) now,
         [postBuildCall body now])) ∧
    (∀ m, jsTruthyOpt body.appId = true → jsTruthyOpt body.appCertificate = true →
      jsTruthyOpt body.channelName = true → isHex32 (body.appId.getD "") = true →
      build (postBuildCall body now) = .error m →
      tokenPOST body now build =
        (.serverError "Failed to generate token" m, [postBuildCall body now])) ∧
    ((postBuildCall body now).role =
      if body.role.getD "audience" = "publisher" then .PUBLISHER else .SUBSCRIBER) ∧
    (∀ s, jsParseInt s = none → postUidNum (some (.str s)) = 0) := by
  refine ⟨?_, ?_, ?_, ?_, rfl, ?_⟩
  · intro h
    unfold tokenPOST
    rcases h with h | h | h <;> simp [h]
  · intro h1 h2 h3 h4
    unfold tokenPOST
    simp [h1, h2, h3, h4]
  · intro t h1 h2 h3 h4 hb
    unfold tokenPOST
    simp only [postBuildCall] at hb
    simp [h1, h2, h3, h4, hb]
    rfl
  · intro m h1 h2 h3 h4 hb
    unfold tokenPOST
    simp only [postBuildCall] at hb
    simp [h1, h2, h3, h4, hb]
    rfl
  · intro s hs
    simp [postUidNum, jsParseIntOr0, hs]

/-- C8 witness: a POST body whose `appId` is only 31 hex characters gets
HTTP 400 with the App-ID-format error message and no signing call. -/
theorem tokenPOST_spec_witness :
    tokenPOST
      { appId := some "aabbccddeeff0011223344556677889",
        appCertificate := some "cert", channelName := some "room" } 1000
      (fun _ => .ok "tok") =
      (.badRequest
        "Invalid App ID format. App ID should be a 32-character hexadecimal string.",
       []) :=
  (tokenPOST_spec _ 1000 _).2.1 (by decide) (by decide) (by decide) (by decide)

end Agora
